import Mathlib

/-
Shallow embedding of src/frontend/src/App.js (the single view module of the
"hyperlocal events" client). JavaScript numbers are modelled as exact
rationals (Rat); a JS value that is null or undefined is modelled as an
Option that is none. Each event handler of the component is embedded as a
pure function from the relevant slice of component state (plus the outcome
of its network call, supplied as an explicit parameter) to the updated
state together with the list of requests it issued.
-/

namespace HyperLocal

/-- Geographic coordinates, as set by requestLocation (App.js lines 68-93). -/
structure Location where
  latitude : Rat
  longitude : Rat
deriving DecidableEq

/-- A chat message as built in handleSendMessage: `{ id, type, content, timestamp }`
(App.js lines 108-113, 139-144, 151-156). The type field is the string
"user" or "bot". -/
structure Message where
  id : Nat
  type : String
  content : String
  timestamp : String
deriving DecidableEq

/-- A recommended event as rendered from the chat response: the Event fields
the sidebar reads plus the computed distance (App.js lines 381-393). -/
structure RecEvent where
  id : String
  title : String
  description : String
  category : String
  distance : Rat
deriving DecidableEq

/-- The parsed body of a successful POST /api/chat response:
`{ response, recommended_events }` (App.js lines 137-147). The
recommended_events field is none when absent or null, matching the
`data.recommended_events || []` fallback. -/
structure ChatResponse where
  response : String
  recommended_events : Option (List RecEvent)
deriving DecidableEq

/-- The object literal passed to JSON.stringify for POST /api/chat
(App.js lines 125-130). latitude and longitude are none when userLocation
is null, since `userLocation?.latitude` is then undefined. -/
structure ChatRequest where
  message : String
  latitude : Option Rat
  longitude : Option Rat
  preferences : List String
deriving DecidableEq

/-- JSON values appearing in the serialized chat request body. -/
inductive JsonValue where
  | jnum (q : Rat)
  | jstr (s : String)
  | jstrArr (xs : List String)
deriving DecidableEq

/-- JSON.stringify applied to the chat request object: keys appear in
insertion order and a key whose value is undefined is omitted from the
output object. -/
def serializeChatRequest (r : ChatRequest) : List (String × JsonValue) :=
  [("message", JsonValue.jstr r.message)]
    ++ (match r.latitude with
        | some q => [("latitude", JsonValue.jnum q)]
        | none => [])
    ++ (match r.longitude with
        | some q => [("longitude", JsonValue.jnum q)]
        | none => [])
    ++ [("preferences", JsonValue.jstrArr r.preferences)]

/-- The slice of component state that handleSendMessage reads and writes
(App.js lines 15-22). -/
structure ChatState where
  messages : List Message
  inputMessage : String
  userLocation : Option Location
  preferences : List String
  recommendedEvents : List RecEvent
  isLoading : Bool
deriving DecidableEq

/-- Outcome of the fetch to POST /api/chat: the promise rejected (network
error, or response.json() rejected), the response arrived with ok false
(App.js line 133 then throws), or it arrived ok with a parsed body. -/
inductive ChatOutcome where
  | rejected
  | notOk
  | ok (data : ChatResponse)
deriving DecidableEq

/-- The JS String.prototype.trim builtin as called at App.js line 106:
drop whitespace from both ends of the string. -/
def jsTrim (s : String) : String :=
  String.mk (((s.toList.dropWhile Char.isWhitespace).reverse.dropWhile
    Char.isWhitespace).reverse)

/-- The fixed apology text of the chat error path (App.js line 154). -/
def apologyText : String :=
  "I'm sorry, I'm having trouble connecting right now. Please try again in a moment."

/-- The user message object built at App.js lines 108-113; `now` stands for
the Date.now() call and `ts` for the toLocaleTimeString() call. -/
def userMessageOf (s : ChatState) (now : Nat) (ts : String) : Message :=
  { id := now, type := "user", content := s.inputMessage, timestamp := ts }

/-- The request body object of App.js lines 125-130, read from the state at
send time (the closure captures inputMessage before it is cleared). -/
def chatRequestOf (s : ChatState) : ChatRequest :=
  { message := s.inputMessage
    latitude := s.userLocation.map Location.latitude
    longitude := s.userLocation.map Location.longitude
    preferences := s.preferences }

/-- The state after the three synchronous updates at App.js lines 115-117:
append the user message, clear the input, set isLoading. -/
def sendPendingState (s : ChatState) (now : Nat) (ts : String) : ChatState :=
  { s with
    messages := s.messages ++ [userMessageOf s now ts]
    inputMessage := ""
    isLoading := true }

/-- handleSendMessage (App.js lines 105-161). Returns the final state and
the list of chat requests issued during the call. tsUser and tsBot stand
for the two toLocaleTimeString() calls; now for Date.now(). -/
def handleSendMessage (s : ChatState) (now : Nat) (tsUser tsBot : String)
    (outcome : ChatOutcome) : ChatState × List ChatRequest :=
  if jsTrim s.inputMessage = "" then (s, [])
  else
    let s1 := sendPendingState s now tsUser
    let req := chatRequestOf s
    match outcome with
    | ChatOutcome.ok data =>
        let botMessage : Message :=
          { id := now + 1, type := "bot", content := data.response, timestamp := tsBot }
        ({ s1 with
            messages := s1.messages ++ [botMessage]
            recommendedEvents := data.recommended_events.getD []
            isLoading := false }, [req])
    | _ =>
        let errorMessage : Message :=
          { id := now + 1, type := "bot", content := apologyText, timestamp := tsBot }
        ({ s1 with
            messages := s1.messages ++ [errorMessage]
            isLoading := false }, [req])

/-- An event as fetched for the gallery (spec data model; App.js lines
405-441 read these fields). -/
structure Event where
  id : String
  title : String
  description : String
  category : String
  date : String
  time : String
  location : String
  address : String
  latitude : Rat
  longitude : Rat
  organizer : String
  price : String
  image_url : String
deriving DecidableEq

/-- Outcome of the GET /api/events fetch in fetchEvents: either the fetch or
response.json() rejected, or a body was parsed (no response.ok check exists
in fetchEvents). -/
inductive EventsFetchOutcome where
  | rejected
  | resolved (data : List Event)
deriving DecidableEq

/-- fetchEvents (App.js lines 95-103): on success the events state becomes
the parsed data; a rejection is caught and only logged. -/
def fetchEvents (events : List Event) (outcome : EventsFetchOutcome) : List Event :=
  match outcome with
  | EventsFetchOutcome.rejected => events
  | EventsFetchOutcome.resolved data => data

/-- The newEvent controlled-form state: every field is a string
(App.js lines 26-39). -/
structure EventForm where
  title : String
  description : String
  category : String
  date : String
  time : String
  location : String
  address : String
  latitude : String
  longitude : String
  organizer : String
  price : String
  image_url : String
deriving DecidableEq

/-- The initial and reset value of newEvent (App.js lines 26-39 and 188-192). -/
def blankEvent : EventForm :=
  { title := "", description := "", category := "", date := "", time := ""
    location := "", address := "", latitude := "", longitude := ""
    organizer := "", price := "Free", image_url := "" }

/-- Sum the value of a list of decimal digit characters. -/
def digitsVal (ds : List Char) : Nat :=
  ds.foldl (fun n c => n * 10 + (c.toNat - 48)) 0

/-- The JS parseFloat builtin as called at App.js lines 174-175: skip leading
whitespace, an optional sign, then the longest decimal-literal prefix
(integer digits, optional fraction, optional exponent). The result none
models a non-finite JS number: NaN when no digits parse, and Infinity for
an "Infinity" literal; both serialize to null under JSON.stringify, which
is all the component observes. Finite values are exact rationals. -/
def parseFloat (s : String) : Option Rat :=
  let cs := s.toList.dropWhile Char.isWhitespace
  let signed : Rat × List Char :=
    match cs with
    | '-' :: rest => (-1, rest)
    | '+' :: rest => (1, rest)
    | _ => (1, cs)
  let sign := signed.1
  let cs1 := signed.2
  if cs1.take 8 = "Infinity".toList then none
  else
    let intPart := cs1.takeWhile Char.isDigit
    let rest1 := cs1.dropWhile Char.isDigit
    let fracSplit : List Char × List Char :=
      match rest1 with
      | '.' :: r => (r.takeWhile Char.isDigit, r.dropWhile Char.isDigit)
      | _ => ([], rest1)
    let fracPart := fracSplit.1
    let rest2 := fracSplit.2
    if intPart.isEmpty && fracPart.isEmpty then none
    else
      let mantissa : Rat :=
        (digitsVal intPart : Rat) + (digitsVal fracPart : Rat) / ((10 : Rat) ^ fracPart.length)
      let exponent : Int :=
        match rest2 with
        | 'e' :: '-' :: r2 =>
            if (r2.takeWhile Char.isDigit).isEmpty then 0
            else -(digitsVal (r2.takeWhile Char.isDigit) : Int)
        | 'e' :: '+' :: r2 =>
            if (r2.takeWhile Char.isDigit).isEmpty then 0
            else (digitsVal (r2.takeWhile Char.isDigit) : Int)
        | 'e' :: r2 =>
            if (r2.takeWhile Char.isDigit).isEmpty then 0
            else (digitsVal (r2.takeWhile Char.isDigit) : Int)
        | 'E' :: '-' :: r2 =>
            if (r2.takeWhile Char.isDigit).isEmpty then 0
            else -(digitsVal (r2.takeWhile Char.isDigit) : Int)
        | 'E' :: '+' :: r2 =>
            if (r2.takeWhile Char.isDigit).isEmpty then 0
            else (digitsVal (r2.takeWhile Char.isDigit) : Int)
        | 'E' :: r2 =>
            if (r2.takeWhile Char.isDigit).isEmpty then 0
            else (digitsVal (r2.takeWhile Char.isDigit) : Int)
        | _ => 0
      some (sign * mantissa * (10 : Rat) ^ exponent)

/-- The eventData object of App.js lines 172-176: the form fields spread,
with latitude and longitude replaced by their parseFloat values. -/
structure EventRequest where
  title : String
  description : String
  category : String
  date : String
  time : String
  location : String
  address : String
  latitude : Option Rat
  longitude : Option Rat
  organizer : String
  price : String
  image_url : String
deriving DecidableEq

/-- Build the POST /api/events body from the form (App.js lines 172-176). -/
def eventRequestOf (f : EventForm) : EventRequest :=
  { title := f.title, description := f.description, category := f.category
    date := f.date, time := f.time, location := f.location, address := f.address
    latitude := parseFloat f.latitude, longitude := parseFloat f.longitude
    organizer := f.organizer, price := f.price, image_url := f.image_url }

/-- The slice of state handleAddEvent reads and writes (App.js lines 23, 26). -/
structure AdminState where
  newEvent : EventForm
  showAddEvent : Bool
deriving DecidableEq

/-- Outcome of the POST /api/events fetch: rejection (caught at App.js line
195) or a response with the given ok flag (only response.ok is read). -/
inductive AddOutcome where
  | rejected
  | resp (ok : Bool)
deriving DecidableEq

/-- handleAddEvent (App.js lines 170-198). Returns the updated admin state,
the requests issued, and whether fetchEvents was re-triggered (line 193).
On a non-ok response or a rejection no state is written. -/
def handleAddEvent (a : AdminState) (outcome : AddOutcome) :
    AdminState × List EventRequest × Bool :=
  let req := eventRequestOf a.newEvent
  match outcome with
  | AddOutcome.resp true =>
      ({ newEvent := blankEvent, showAddEvent := false }, [req], true)
  | _ => (a, [req], false)

/-- addPreference (App.js lines 200-204): append the category only when the
list does not already include it. -/
def addPreference (preferences : List String) (category : String) : List String :=
  if preferences.contains category then preferences
  else preferences ++ [category]

/-- removePreference (App.js lines 206-208): keep the entries different from
the category. -/
def removePreference (preferences : List String) (category : String) : List String :=
  preferences.filter (fun p => p != category)

/-- One user interaction with the preferences card: selecting a category in
the Select (App.js line 359) or clicking a Badge (App.js line 353). -/
inductive PrefOp where
  | add (category : String)
  | remove (category : String)
deriving DecidableEq

/-- Apply one preferences interaction. -/
def applyPrefOp (preferences : List String) : PrefOp → List String
  | PrefOp.add category => addPreference preferences category
  | PrefOp.remove category => removePreference preferences category

/-- The preferences list reached from the initial state [] (App.js line 22)
by a sequence of interactions. -/
def runPrefOps (ops : List PrefOp) : List String :=
  ops.foldl applyPrefOp []

/-- Outcome of one requestLocation call that ran to completion
(App.js lines 68-93): navigator.geolocation was absent, the error callback
fired, or the success callback fired with the given coordinates. -/
inductive GeoOutcome where
  | unavailable
  | geoError
  | position (latitude longitude : Rat)
deriving DecidableEq

/-- requestLocation (App.js lines 68-93): every completed call overwrites
userLocation; both failure branches use the fixed default NYC coordinates. -/
def requestLocation (loc : Option Location) (outcome : GeoOutcome) : Option Location :=
  match outcome with
  | GeoOutcome.position lat lon => some { latitude := lat, longitude := lon }
  | GeoOutcome.geoError => some { latitude := 40.7589, longitude := -73.9851 }
  | GeoOutcome.unavailable => some { latitude := 40.7589, longitude := -73.9851 }

/-- A concrete chat state used to instantiate theorems with hypotheses. -/
def chatStateEx : ChatState :=
  { messages := [{ id := 1, type := "bot", content := "welcome", timestamp := "t0" }]
    inputMessage := "hi"
    userLocation := none
    preferences := ["Music"]
    recommendedEvents := []
    isLoading := false }

/-- C1: on a non-empty send whose fetch rejects or whose response is not ok,
handleSendMessage appends exactly the user message and one bot message with
the fixed apology text (no error code in it), and issues exactly one chat
request (no retry). -/
theorem chat_failure_appends_single_apology (s : ChatState) (now : Nat)
    (tsUser tsBot : String) (outcome : ChatOutcome)
    (hne : ¬ jsTrim s.inputMessage = "")
    (hfail : outcome = ChatOutcome.rejected ∨ outcome = ChatOutcome.notOk) :
    (handleSendMessage s now tsUser tsBot outcome).1.messages
      = s.messages ++ [userMessageOf s now tsUser,
          { id := now + 1, type := "bot", content := apologyText, timestamp := tsBot }]
    ∧ (handleSendMessage s now tsUser tsBot outcome).2 = [chatRequestOf s] := by
  rcases hfail with h | h <;> subst h <;>
    simp [handleSendMessage, sendPendingState, hne]

/-- Witness for C1 at a concrete state and a rejected fetch. -/
theorem chat_failure_appends_single_apology_witness :
    (handleSendMessage chatStateEx 5 "t1" "t2" ChatOutcome.rejected).1.messages
      = chatStateEx.messages ++ [userMessageOf chatStateEx 5 "t1",
          { id := 6, type := "bot", content := apologyText, timestamp := "t2" }]
    ∧ (handleSendMessage chatStateEx 5 "t1" "t2" ChatOutcome.rejected).2
      = [chatRequestOf chatStateEx] :=
  chat_failure_appends_single_apology chatStateEx 5 "t1" "t2" ChatOutcome.rejected
    (by decide) (Or.inl rfl)

/-- C2: every non-empty send appends exactly one user message followed by
exactly one bot message, whatever the outcome of the chat request. -/
theorem chat_send_appends_one_user_one_bot (s : ChatState) (now : Nat)
    (tsUser tsBot : String) (outcome : ChatOutcome)
    (hne : ¬ jsTrim s.inputMessage = "") :
    ∃ b : Message,
      (handleSendMessage s now tsUser tsBot outcome).1.messages
        = s.messages ++ [userMessageOf s now tsUser, b]
      ∧ (userMessageOf s now tsUser).type = "user"
      ∧ b.type = "bot" := by
  rcases outcome with _ | _ | data
  · exact ⟨{ id := now + 1, type := "bot", content := apologyText, timestamp := tsBot },
      by simp [handleSendMessage, sendPendingState, hne], rfl, rfl⟩
  · exact ⟨{ id := now + 1, type := "bot", content := apologyText, timestamp := tsBot },
      by simp [handleSendMessage, sendPendingState, hne], rfl, rfl⟩
  · exact ⟨{ id := now + 1, type := "bot", content := data.response, timestamp := tsBot },
      by simp [handleSendMessage, sendPendingState, hne], rfl, rfl⟩

/-- Witness for C2 at a concrete state and a successful response. -/
theorem chat_send_appends_one_user_one_bot_witness :
    ∃ b : Message,
      (handleSendMessage chatStateEx 5 "t1" "t2"
          (ChatOutcome.ok { response := "try the jazz bar", recommended_events := none })).1.messages
        = chatStateEx.messages ++ [userMessageOf chatStateEx 5 "t1", b]
      ∧ (userMessageOf chatStateEx 5 "t1").type = "user"
      ∧ b.type = "bot" :=
  chat_send_appends_one_user_one_bot chatStateEx 5 "t1" "t2"
    (ChatOutcome.ok { response := "try the jazz bar", recommended_events := none })
    (by decide)

/-- C3: the messages list is append-only across handleSendMessage: the
intermediate update appends the user message to the previous list, and the
final state extends the original list by a suffix, in every case. -/
theorem chat_messages_append_only (s : ChatState) (now : Nat)
    (tsUser tsBot : String) (outcome : ChatOutcome) :
    (sendPendingState s now tsUser).messages = s.messages ++ [userMessageOf s now tsUser]
    ∧ ∃ tail, (handleSendMessage s now tsUser tsBot outcome).1.messages
        = s.messages ++ tail := by
  refine ⟨rfl, ?_⟩
  by_cases h : jsTrim s.inputMessage = ""
  · exact ⟨[], by simp [handleSendMessage, h]⟩
  · rcases outcome with _ | _ | data
    · exact ⟨[userMessageOf s now tsUser,
        { id := now + 1, type := "bot", content := apologyText, timestamp := tsBot }],
        by simp [handleSendMessage, sendPendingState, h]⟩
    · exact ⟨[userMessageOf s now tsUser,
        { id := now + 1, type := "bot", content := apologyText, timestamp := tsBot }],
        by simp [handleSendMessage, sendPendingState, h]⟩
    · exact ⟨[userMessageOf s now tsUser,
        { id := now + 1, type := "bot", content := data.response, timestamp := tsBot }],
        by simp [handleSendMessage, sendPendingState, h]⟩

/-- C9: a send whose input trims to the empty string is a complete no-op:
the state is returned unchanged and no request is issued. -/
theorem chat_empty_input_noop (s : ChatState) (now : Nat)
    (tsUser tsBot : String) (outcome : ChatOutcome)
    (h : jsTrim s.inputMessage = "") :
    handleSendMessage s now tsUser tsBot outcome = (s, []) := by
  simp [handleSendMessage, h]

/-- Witness for C9 at a whitespace-only input. -/
theorem chat_empty_input_noop_witness :
    handleSendMessage { chatStateEx with inputMessage := "   " } 5 "t1" "t2"
      ChatOutcome.rejected = ({ chatStateEx with inputMessage := "   " }, []) :=
  chat_empty_input_noop { chatStateEx with inputMessage := "   " } 5 "t1" "t2"
    ChatOutcome.rejected (by decide)

/-- Adding a preference preserves distinctness of the list. -/
theorem addPreference_nodup (prefs : List String) (c : String)
    (h : prefs.Nodup) : (addPreference prefs c).Nodup := by
  by_cases hm : c ∈ prefs
  · simp [addPreference, hm, h]
  · simp [addPreference, hm, List.nodup_append, h]

/-- Each preferences interaction preserves distinctness. -/
theorem applyPrefOp_nodup (prefs : List String) (op : PrefOp)
    (h : prefs.Nodup) : (applyPrefOp prefs op).Nodup := by
  rcases op with c | c
  · exact addPreference_nodup prefs c h
  · exact h.filter _

/-- Folding any interaction sequence from a distinct list stays distinct. -/
theorem foldl_prefOps_nodup (ops : List PrefOp) (prefs : List String)
    (h : prefs.Nodup) : (ops.foldl applyPrefOp prefs).Nodup := by
  induction ops generalizing prefs with
  | nil => exact h
  | cons op rest ih => exact ih _ (applyPrefOp_nodup prefs op h)

/-- C4: starting from the empty list, every sequence of addPreference and
removePreference calls keeps the preference categories pairwise distinct,
and addPreference on an already-present category leaves the list unchanged. -/
theorem preferences_never_duplicate :
    (∀ ops : List PrefOp, (runPrefOps ops).Nodup)
    ∧ ∀ (prefs : List String) (c : String), c ∈ prefs → addPreference prefs c = prefs := by
  constructor
  · intro ops
    exact foldl_prefOps_nodup ops [] List.nodup_nil
  · intro prefs c hc
    simp [addPreference, hc]

/-- Witness for C4 at a concrete interaction sequence and a duplicate add. -/
theorem preferences_never_duplicate_witness :
    (runPrefOps [PrefOp.add "Music", PrefOp.add "Music",
        PrefOp.add "Food & Drink", PrefOp.remove "Music"]).Nodup
    ∧ addPreference ["Music"] "Music" = ["Music"] :=
  ⟨preferences_never_duplicate.1 _,
   preferences_never_duplicate.2 ["Music"] "Music" (by simp)⟩

/-- A form whose latitude does not parse as a float. -/
def badEventForm : EventForm :=
  { blankEvent with latitude := "abc", longitude := "1.5" }

/-- An open admin dialog holding the unparsable form. -/
def badAdminState : AdminState :=
  { newEvent := badEventForm, showAddEvent := true }

/-- C5 counterexample: with latitude "abc" parseFloat yields NaN (modelled
none), yet handleAddEvent still issues the POST /api/events request: the
submission proceeds without any parse-before-submit validation. -/
theorem add_event_submits_unparsed_cex :
    parseFloat badAdminState.newEvent.latitude = none
    ∧ (handleAddEvent badAdminState AddOutcome.rejected).2.1
        = [eventRequestOf badAdminState.newEvent] :=
  ⟨rfl, rfl⟩

/-- C5 amended: the request body sent to POST /api/events carries the
parseFloat values of the latitude and longitude form strings (null when the
parse yields NaN), the other form fields unchanged, and exactly one request
is issued on every invocation, whether or not the strings parse. -/
theorem add_event_body_uses_parsefloat (a : AdminState) (outcome : AddOutcome) :
    (handleAddEvent a outcome).2.1 = [eventRequestOf a.newEvent]
    ∧ (eventRequestOf a.newEvent).latitude = parseFloat a.newEvent.latitude
    ∧ (eventRequestOf a.newEvent).longitude = parseFloat a.newEvent.longitude
    ∧ (eventRequestOf a.newEvent).title = a.newEvent.title
    ∧ (eventRequestOf a.newEvent).category = a.newEvent.category := by
  refine ⟨?_, rfl, rfl, rfl, rfl⟩
  rcases outcome with _ | ok
  · rfl
  · rcases ok <;> rfl

/-- A chat state whose user location is still null (geolocation pending). -/
def noLocState : ChatState :=
  { messages := []
    inputMessage := "hi"
    userLocation := none
    preferences := ["Music"]
    recommendedEvents := []
    isLoading := false }

/-- C6 counterexample: a send issued while userLocation is still null posts
a serialized body whose keys are only message and preferences: the latitude
and longitude keys are omitted, because undefined values are dropped by
JSON.stringify. -/
theorem chat_body_omits_location_cex :
    (handleSendMessage noLocState 0 "t1" "t2" ChatOutcome.notOk).2
      = [chatRequestOf noLocState]
    ∧ (serializeChatRequest (chatRequestOf noLocState)).map Prod.fst
      = ["message", "preferences"]
    ∧ "latitude" ∉ (serializeChatRequest (chatRequestOf noLocState)).map Prod.fst := by
  refine ⟨rfl, rfl, ?_⟩
  decide

/-- C6 amended: the chat request body holds the input text at send time and
the current preference list; when a user location is set it also holds that
location as the latitude and longitude fields, and when the location is
still null those two keys are omitted from the serialized body. Exactly one
request is issued per non-empty send. -/
theorem chat_body_fields (s : ChatState) (now : Nat) (tsUser tsBot : String)
    (outcome : ChatOutcome) (hne : ¬ jsTrim s.inputMessage = "") :
    (handleSendMessage s now tsUser tsBot outcome).2 = [chatRequestOf s]
    ∧ (∀ loc : Location, s.userLocation = some loc →
        serializeChatRequest (chatRequestOf s)
          = [("message", JsonValue.jstr s.inputMessage),
             ("latitude", JsonValue.jnum loc.latitude),
             ("longitude", JsonValue.jnum loc.longitude),
             ("preferences", JsonValue.jstrArr s.preferences)])
    ∧ (s.userLocation = none →
        serializeChatRequest (chatRequestOf s)
          = [("message", JsonValue.jstr s.inputMessage),
             ("preferences", JsonValue.jstrArr s.preferences)]) := by
  refine ⟨?_, ?_, ?_⟩
  · rcases outcome with _ | _ | data <;> simp [handleSendMessage, hne]
  · intro loc hloc
    simp [serializeChatRequest, chatRequestOf, hloc]
  · intro hloc
    simp [serializeChatRequest, chatRequestOf, hloc]

/-- A chat state with a detected user location. -/
def locState : ChatState :=
  { messages := []
    inputMessage := "hello"
    userLocation := some { latitude := 1, longitude := 2 }
    preferences := ["Music"]
    recommendedEvents := []
    isLoading := false }

/-- Witness for the amended C6 at a state with a detected location. -/
theorem chat_body_fields_witness :
    (handleSendMessage locState 0 "t1" "t2" ChatOutcome.rejected).2
      = [chatRequestOf locState]
    ∧ serializeChatRequest (chatRequestOf locState)
      = [("message", JsonValue.jstr "hello"),
         ("latitude", JsonValue.jnum 1),
         ("longitude", JsonValue.jnum 2),
         ("preferences", JsonValue.jstrArr ["Music"])] :=
  ⟨(chat_body_fields locState 0 "t1" "t2" ChatOutcome.rejected (by decide)).1,
   (chat_body_fields locState 0 "t1" "t2" ChatOutcome.rejected (by decide)).2.1
     { latitude := 1, longitude := 2 } rfl⟩

/-- C7: a rejected events fetch leaves the events state unchanged, and a
failed add-event request (rejection or non-ok response) leaves both the
newEvent form and the showAddEvent dialog state unchanged. -/
theorem events_failures_silent (events : List Event) (a : AdminState)
    (outcome : AddOutcome)
    (hfail : outcome = AddOutcome.rejected ∨ outcome = AddOutcome.resp false) :
    fetchEvents events EventsFetchOutcome.rejected = events
    ∧ (handleAddEvent a outcome).1 = a := by
  refine ⟨rfl, ?_⟩
  rcases hfail with h | h <;> subst h <;> rfl

/-- Witness for C7 at a concrete admin state and a non-ok response. -/
theorem events_failures_silent_witness :
    fetchEvents [] EventsFetchOutcome.rejected = []
    ∧ (handleAddEvent badAdminState (AddOutcome.resp false)).1 = badAdminState :=
  events_failures_silent [] badAdminState (AddOutcome.resp false) (Or.inr rfl)

/-- A recommended event left over from an earlier chat turn. -/
def recEx : RecEvent :=
  { id := "e1", title := "Jazz Night", description := "live jazz"
    category := "Music", distance := 1 }

/-- A chat state still holding a recommendation from an earlier turn. -/
def staleRecState : ChatState :=
  { messages := []
    inputMessage := "more"
    userLocation := none
    preferences := []
    recommendedEvents := [recEx]
    isLoading := false }

/-- C8 counterexample: a chat turn whose fetch rejects leaves the
recommendation of an earlier turn in recommendedEvents: after this turn the
state is neither the (nonexistent) response list of the turn nor empty. -/
theorem stale_recommendations_cex :
    (handleSendMessage staleRecState 0 "t1" "t2" ChatOutcome.rejected).1.recommendedEvents
      = [recEx]
    ∧ recEx ∈ staleRecState.recommendedEvents
    ∧ ([recEx] : List RecEvent) ≠ [] := by
  refine ⟨rfl, ?_, ?_⟩ <;> decide

/-- C8 amended: after a successful chat turn recommendedEvents equals that
turn response recommended_events list (or the empty list when the field is
absent); after a failed turn recommendedEvents is left unchanged and may
still hold recommendations from earlier turns. -/
theorem recommendations_follow_turn (s : ChatState) (now : Nat)
    (tsUser tsBot : String) (hne : ¬ jsTrim s.inputMessage = "") :
    (∀ data : ChatResponse,
        (handleSendMessage s now tsUser tsBot (ChatOutcome.ok data)).1.recommendedEvents
          = data.recommended_events.getD [])
    ∧ ∀ outcome : ChatOutcome,
        (outcome = ChatOutcome.rejected ∨ outcome = ChatOutcome.notOk) →
        (handleSendMessage s now tsUser tsBot outcome).1.recommendedEvents
          = s.recommendedEvents := by
  constructor
  · intro data
    simp [handleSendMessage, sendPendingState, hne]
  · intro outcome h
    rcases h with h | h <;> subst h <;> simp [handleSendMessage, sendPendingState, hne]

/-- Witness for the amended C8: a successful turn installs the response
list; a failed turn keeps the current list. -/
theorem recommendations_follow_turn_witness :
    (handleSendMessage staleRecState 5 "t1" "t2"
        (ChatOutcome.ok { response := "ok", recommended_events := some [] })).1.recommendedEvents
      = []
    ∧ (handleSendMessage staleRecState 5 "t1" "t2" ChatOutcome.notOk).1.recommendedEvents
      = staleRecState.recommendedEvents :=
  ⟨(recommendations_follow_turn staleRecState 5 "t1" "t2" (by decide)).1
      { response := "ok", recommended_events := some [] },
   (recommendations_follow_turn staleRecState 5 "t1" "t2" (by decide)).2
      ChatOutcome.notOk (Or.inr rfl)⟩

/-- C10: every completed requestLocation call sets a location, and both the
geolocation-unavailable and the error-callback branches set the fixed
default coordinates 40.7589, -73.9851. -/
theorem request_location_always_set (loc : Option Location) (outcome : GeoOutcome) :
    (requestLocation loc outcome).isSome = true
    ∧ ((outcome = GeoOutcome.unavailable ∨ outcome = GeoOutcome.geoError) →
        requestLocation loc outcome
          = some { latitude := 40.7589, longitude := -73.9851 }) := by
  cases outcome <;> simp [requestLocation]

/-- Witness for C10 at a null prior location and an error callback. -/
theorem request_location_always_set_witness :
    (requestLocation none GeoOutcome.geoError).isSome = true
    ∧ requestLocation none GeoOutcome.geoError
      = some { latitude := 40.7589, longitude := -73.9851 } :=
  ⟨(request_location_always_set none GeoOutcome.geoError).1,
   (request_location_always_set none GeoOutcome.geoError).2 (Or.inr rfl)⟩

end HyperLocal
